import Mathlib

/-!
Shallow embedding of the Codexify MobileUI core
(`src-tauri/src/llm_provider.rs` and `src-tauri/src/main.rs`):
the provider abstraction, the Groq backend adapter, the archetype
registry built at startup, the prompt composer and the request
dispatcher `ask_guardian`.
-/

namespace Codexify

/-- `AppRequest` from `llm_provider.rs`: prompt, archetype name and an
optional user system prompt. -/
structure AppRequest where
  prompt : String
  archetype : String
  user_system_prompt : Option String

/-- `LLMResponse` from `llm_provider.rs`. -/
structure LLMResponse where
  content : String
deriving DecidableEq

/-- `ProviderRequest` from `llm_provider.rs`. -/
structure ProviderRequest where
  full_prompt : String
  model_name : String

/-- The errors a provider call can produce, read off the four failure
points of `GroqProvider::ask` in `llm_provider.rs` (anyhow contexts and
ad-hoc messages). -/
inductive ProviderError where
  | sendFailed (cause : String)
  | parseFailed
  | noChoices
  | apiError (status : Nat)
deriving DecidableEq

/-- The string `anyhow::Error`'s `to_string` shows for each error of
`GroqProvider::ask`: the outermost context or the formatted message. -/
def ProviderError.display : ProviderError → String
  | .sendFailed _ => "Failed to send request to Groq API"
  | .parseFailed => "Failed to parse Groq response"
  | .noChoices => "Groq response contained no choices."
  | .apiError status => "Groq API Error: " ++ toString status

/-- `GroqMessage` from the response-deserialization structs in
`GroqProvider::ask`. -/
structure GroqMessage where
  content : String
deriving DecidableEq

/-- `GroqChoice` from the response-deserialization structs. -/
structure GroqChoice where
  message : GroqMessage
deriving DecidableEq

/-- `GroqResponse` from the response-deserialization structs. -/
structure GroqResponse where
  choices : List GroqChoice
deriving DecidableEq

/-- A JSON value, as much of it as the adapter's wire format needs. -/
inductive Json where
  | str (s : String)
  | arr (elems : List Json)
  | obj (fields : List (String × Json))

/-- The HTTP request `GroqProvider::ask` sends: the fixed endpoint URL,
the bearer credential and the JSON body. -/
structure HttpRequest where
  url : String
  bearer : String
  body : Json

/-- The HTTP response as the adapter consumes it: the status code, and
the body already run through serde deserialization into `GroqResponse`
(`none` models an unparseable body). -/
structure HttpResponse where
  status : Nat
  body : Option GroqResponse

/-- The network: what `self.client.post(...).send()` does. An `Except`
error models transport failure. -/
def Transport : Type := HttpRequest → Except String HttpResponse

/-- `reqwest::StatusCode::is_success`: 200 ≤ status < 300. -/
def statusIsSuccess (status : Nat) : Bool :=
  200 ≤ status && status < 300

/-- The JSON request body built in `GroqProvider::ask`:
model plus a single user-role message carrying the full prompt. -/
def groqRequestBody (request : ProviderRequest) : Json :=
  .obj [("model", .str request.model_name),
        ("messages", .arr [.obj [("role", .str "user"),
                                 ("content", .str request.full_prompt)]])]

/-- The outbound HTTP request assembled by the builder chain in
`GroqProvider::ask`: fixed URL, bearer auth with the adapter's key,
JSON body. -/
def groqHttpRequest (api_key : String) (request : ProviderRequest) : HttpRequest :=
  ⟨"https://api.groq.com/openai/v1/chat/completions", api_key, groqRequestBody request⟩

/-- `GroqProvider::ask` from `llm_provider.rs`, with the HTTP client
abstracted as a `Transport`: send the request; on transport failure
error with the send context; on success status parse the body (parse
failure errors with the parse context), answer with the first choice's
content, or error with "no choices" when the list is empty; on
non-success status error with the status code. -/
def groqAsk (api_key : String) (transport : Transport) (request : ProviderRequest) :
    Except ProviderError LLMResponse :=
  match transport (groqHttpRequest api_key request) with
  | .error cause => .error (.sendFailed cause)
  | .ok response =>
    if statusIsSuccess response.status then
      match response.body with
      | none => .error .parseFailed
      | some groq_response =>
        match groq_response.choices.head? with
        | some choice => .ok ⟨choice.message.content⟩
        | none => .error .noChoices
    else
      .error (.apiError response.status)

/-- `Archetype` from `main.rs`: a system prompt, a model name, and the
provider bound to it (the `Arc<dyn LLMProvider>` modelled as the
provider's `ask` function). -/
structure Archetype where
  system_prompt : String
  model_name : String
  provider : ProviderRequest → Except ProviderError LLMResponse

/-- `AppState` from `main.rs`: the archetype registry. The `HashMap` is
modelled as an association list with unique keys, looked up by exact
name match. -/
structure AppState where
  archetypes : List (String × Archetype)

/-- Step 2 of `ask_guardian`: combine the archetype's system prompt,
the optional user instructions, and the user's prompt into one string,
exactly as the `push_str` sequence in `main.rs` does. -/
def composeFullPrompt (archetype : Archetype) (request : AppRequest) : String :=
  let full_prompt_content := archetype.system_prompt
  let full_prompt_content :=
    match request.user_system_prompt with
    | some user_prompt =>
        full_prompt_content ++ "\n\n--- User\x27s Instructions ---\n" ++ user_prompt
    | none => full_prompt_content
  full_prompt_content ++ "\n\n--- User\x27s Prompt ---\n" ++ request.prompt

/-- Step 3 of `ask_guardian`: the `ProviderRequest` handed to the
provider — the composed prompt and the archetype's model name. -/
def buildProviderRequest (archetype : Archetype) (request : AppRequest) : ProviderRequest :=
  ⟨composeFullPrompt archetype request, archetype.model_name⟩

/-- `ask_guardian` from `main.rs`: look the archetype up (missing names
yield the formatted lookup error), compose the prompt, build the
provider request, call the archetype's provider and map its error to
the display string. -/
def askGuardian (state : AppState) (request : AppRequest) : Except String LLMResponse :=
  match state.archetypes.lookup request.archetype with
  | none => .error ("Archetype \x27" ++ request.archetype ++ "\x27 not found.")
  | some archetype =>
      (archetype.provider (buildProviderRequest archetype request)).mapError
        ProviderError.display

/-- The registry built once in `main` in `main.rs`: the Scout and
Architect archetypes, both bound to the one shared Groq provider
constructed from the configured API key (the ambient HTTP transport is
a parameter of the model). -/
def buildRegistry (groq_api_key : String) (transport : Transport) : AppState :=
  let groq_provider := groqAsk groq_api_key transport
  ⟨[("Scout",
     ⟨"You are the Scout. You are fast, versatile, and conversational. Perfect for quick questions, brainstorming, and daily dialogue.",
      "llama3-8b-8192", groq_provider⟩),
    ("Architect",
     ⟨"You are the Architect. You are logical, structured, and deep. Ideal for planning, analysis, and complex problem-solving.",
      "llama3-70b-8192", groq_provider⟩)]⟩

/-- `pat` occurs as a contiguous substring of `s`. -/
def containsStr (s pat : String) : Prop :=
  pat.data <:+: s.data

instance (s pat : String) : Decidable (containsStr s pat) :=
  List.decidableInfix pat.data s.data

/-- The header line the composer writes in front of the user's
instructions (without the surrounding newlines). -/
def instructionsHeader : String := "--- User\x27s Instructions ---"

/-- The separator block the composer always appends in front of the
user's prompt. -/
def promptSeparator : String := "\n\n--- User\x27s Prompt ---\n"

/-- The separator block the composer appends in front of the user's
instructions when they are present. -/
def instrSeparator : String := "\n\n--- User\x27s Instructions ---\n"

/-- An infix of a concatenation lies in the left part, lies in the
right part, or straddles the boundary with a nonempty suffix of the
left and a nonempty prefix of the right. -/
theorem infixAppendSplit {α : Type} {n X Y : List α} (h : n <:+: X ++ Y) :
    n <:+: X ∨ n <:+: Y ∨
      ∃ s t, n = s ++ t ∧ s ≠ [] ∧ t ≠ [] ∧ s <:+ X ∧ t <+: Y := by
  obtain ⟨u, v, huv⟩ := h
  by_cases h1 : u.length + n.length ≤ X.length
  · left
    have hX := congrArg (List.take X.length) huv
    rw [List.take_left] at hX
    rw [List.take_append_eq_append_take,
      List.take_of_length_le (by simp [List.length_append]; omega)] at hX
    exact ⟨u, List.take (X.length - (u ++ n).length) v, hX⟩
  · by_cases h2 : X.length ≤ u.length
    · right; left
      have hY := congrArg (List.drop X.length) huv
      rw [List.drop_left] at hY
      rw [List.drop_append_eq_append_drop, List.drop_append_eq_append_drop] at hY
      have hz : X.length - u.length = 0 := by omega
      have hz2 : X.length - (u.length + n.length) = 0 := by omega
      simp only [List.length_append, hz, hz2, List.drop_zero] at hY
      exact ⟨List.drop X.length u, v, hY⟩
    · right; right
      push_neg at h1 h2
      refine ⟨n.take (X.length - u.length), n.drop (X.length - u.length),
        (List.take_append_drop _ n).symm, ?_, ?_, ?_, ?_⟩
      · have hl : (n.take (X.length - u.length)).length = X.length - u.length := by
          rw [List.length_take]; omega
        intro hnil
        rw [hnil] at hl
        simp at hl
        omega
      · have hl : (n.drop (X.length - u.length)).length = n.length - (X.length - u.length) := by
          rw [List.length_drop]
        intro hnil
        rw [hnil] at hl
        simp at hl
        omega
      · have hX := congrArg (List.take X.length) huv
        rw [List.take_left] at hX
        rw [List.take_append_eq_append_take] at hX
        have hz2 : X.length - (u ++ n).length = 0 := by simp [List.length_append]; omega
        rw [hz2, List.take_zero, List.append_nil] at hX
        rw [List.take_append_eq_append_take, List.take_of_length_le (by omega)] at hX
        exact ⟨u, hX⟩
      · have hY := congrArg (List.drop X.length) huv
        rw [List.drop_left] at hY
        rw [List.drop_append_eq_append_drop] at hY
        have hz2 : X.length - (u ++ n).length = 0 := by simp [List.length_append]; omega
        rw [hz2, List.drop_zero] at hY
        rw [List.drop_append_eq_append_drop, List.drop_eq_nil_of_le (by omega),
          List.nil_append] at hY
        exact ⟨v, hY⟩

/-- A prefix of a concatenation is a prefix of the left part or extends
it by a prefix of the right part. -/
theorem prefixAppendSplit {α : Type} {n X Y : List α} (h : n <+: X ++ Y) :
    n <+: X ∨ ∃ t, n = X ++ t ∧ t <+: Y := by
  by_cases hl : n.length ≤ X.length
  · left
    exact List.prefix_of_prefix_length_le h (List.prefix_append X Y) hl
  · right
    have hXn : X <+: n := List.prefix_of_prefix_length_le (List.prefix_append X Y) h (by omega)
    obtain ⟨t, ht⟩ := hXn
    refine ⟨t, ht.symm, ?_⟩
    rw [← ht] at h
    obtain ⟨r, hr⟩ := h
    rw [List.append_assoc] at hr
    exact ⟨r, List.append_cancel_left hr⟩

/-- A nonempty suffix contains the last element of the whole list. -/
theorem mem_of_suffix_getLast {s l : List Char} {a : Char} (h : s <:+ l) (hne : s ≠ [])
    (ha : l.getLast? = some a) : a ∈ s := by
  obtain ⟨p, hp⟩ := h
  rw [← hp, List.getLast?_append_of_ne_nil p hne, List.getLast?_eq_getLast_of_ne_nil hne] at ha
  have := List.getLast_mem hne
  rwa [Option.some_inj.mp ha] at this

/-- A nonempty prefix contains the head of the whole list. -/
theorem mem_of_prefix_head {t l : List Char} {a : Char} (h : t <+: l) (hne : t ≠ [])
    (ha : l.head? = some a) : a ∈ t := by
  obtain ⟨p, hp⟩ := h
  rw [← hp, List.head?_append_of_ne_nil t hne] at ha
  cases t with
  | nil => exact absurd rfl hne
  | cons x xs =>
    simp only [List.head?_cons, Option.some_inj] at ha
    rw [← ha]
    exact List.mem_cons_self x xs

/-- A newline-free needle that occurs in neither side of a
concatenation whose separator starts and ends with a newline cannot
occur in the concatenation at all. -/
theorem not_infix_append_sep {n sep A B : List Char}
    (hnl : '\n' ∉ n) (hshead : sep.head? = some '\n') (hslast : sep.getLast? = some '\n')
    (hsep : ¬ n <:+: sep) (hA : ¬ n <:+: A) (hB : ¬ n <:+: B) :
    ¬ n <:+: A ++ (sep ++ B) := by
  intro h
  have hsepnl : '\n' ∈ sep := by
    cases sep with
    | nil => simp at hshead
    | cons x xs =>
      simp only [List.head?_cons, Option.some_inj] at hshead
      rw [← hshead]
      exact List.mem_cons_self x xs
  rcases infixAppendSplit h with hX | hYZ | ⟨s, t, hn, hsne, htne, hsuf, hpre⟩
  · exact hA hX
  · rcases infixAppendSplit hYZ with hS | hB2 | ⟨s, t, hn, hsne, htne, hsuf, hpre⟩
    · exact hsep hS
    · exact hB hB2
    · have : '\n' ∈ s := mem_of_suffix_getLast hsuf hsne hslast
      exact hnl (hn ▸ List.mem_append_left t this)
  · rcases prefixAppendSplit hpre with hts | ⟨t', ht', _⟩
    · have : '\n' ∈ t := mem_of_prefix_head hts htne hshead
      exact hnl (hn ▸ List.mem_append_right s this)
    · have : '\n' ∈ t := ht' ▸ List.mem_append_left t' hsepnl
      exact hnl (hn ▸ List.mem_append_right s this)

/-- With no user instructions the composer emits system prompt,
separator, user prompt. -/
theorem composeFullPrompt_none (archetype : Archetype) (request : AppRequest)
    (h : request.user_system_prompt = none) :
    composeFullPrompt archetype request =
      archetype.system_prompt ++ promptSeparator ++ request.prompt := by
  unfold composeFullPrompt
  rw [h]
  rfl

/-- With user instructions present the composer emits all three
sections. -/
theorem composeFullPrompt_some (archetype : Archetype) (request : AppRequest) (u : String)
    (h : request.user_system_prompt = some u) :
    composeFullPrompt archetype request =
      archetype.system_prompt ++ instrSeparator ++ u ++ promptSeparator ++ request.prompt := by
  unfold composeFullPrompt
  rw [h]
  rfl

/-- Character-level view of the composed prompt without instructions. -/
theorem composeFullPrompt_none_data (archetype : Archetype) (request : AppRequest)
    (h : request.user_system_prompt = none) :
    (composeFullPrompt archetype request).data =
      archetype.system_prompt.data ++ (promptSeparator.data ++ request.prompt.data) := by
  rw [composeFullPrompt_none archetype request h, String.data_append, String.data_append,
    List.append_assoc]

/-! ## Claim theorems -/

/-- C1 (counterexample): with `user_system_prompt = Some("")` — present
but empty — the composed prompt still contains the "User's
Instructions" header, refuting the claimed "present and non-empty"
iff. -/
theorem C1_counterexample :
    containsStr
      (composeFullPrompt ⟨"S", "m", fun _ => .error .noChoices⟩ ⟨"p", "A", some ""⟩)
      instructionsHeader
    ∧ ¬ ∃ u, (some "" : Option String) = some u ∧ u ≠ "" := by
  constructor
  · decide
  · rintro ⟨u, hu, hne⟩
    exact hne (Option.some_inj.mp hu).symm

/-- C1 (amended): provided neither the archetype's system prompt nor
the request's prompt contains the header text themselves, the composed
full prompt contains the "User's Instructions" header if and only if
`user_system_prompt` is present — present-but-empty included; in
particular for `None` the section is omitted entirely. -/
theorem C1_instructions_section_iff_present (archetype : Archetype) (request : AppRequest)
    (hs : ¬ containsStr archetype.system_prompt instructionsHeader)
    (hp : ¬ containsStr request.prompt instructionsHeader) :
    containsStr (composeFullPrompt archetype request) instructionsHeader ↔
      request.user_system_prompt.isSome := by
  cases hcase : request.user_system_prompt with
  | none =>
    simp only [Option.isSome_none, Bool.false_eq_true, iff_false]
    intro h
    rw [containsStr, composeFullPrompt_none_data archetype request hcase] at h
    exact not_infix_append_sep (by decide) (by decide) (by decide) (by decide) hs hp h
  | some u =>
    simp only [Option.isSome_some, iff_true]
    rw [containsStr, composeFullPrompt_some archetype request u hcase]
    have h1 : instructionsHeader.data <:+: instrSeparator.data := by decide
    refine h1.trans ?_
    refine ⟨archetype.system_prompt.data,
      u.data ++ promptSeparator.data ++ request.prompt.data, ?_⟩
    simp [String.data_append, List.append_assoc]

/-- C1 (witness): the amended iff evaluated at a concrete archetype and
request with instructions present. -/
theorem C1_witness :
    containsStr
      (composeFullPrompt ⟨"S", "m", fun _ => .error .noChoices⟩ ⟨"p", "A", some "inst"⟩)
      instructionsHeader :=
  (C1_instructions_section_iff_present
      ⟨"S", "m", fun _ => .error .noChoices⟩ ⟨"p", "A", some "inst"⟩
      (by decide) (by decide)).mpr rfl

/-- C2: whenever the requested archetype name is not a registry key,
`ask_guardian` answers exactly the formatted lookup error — for every
state, hence for every behaviour of every registered provider, so no
provider call can influence (or be needed for) the result. -/
theorem C2_archetype_not_found (state : AppState) (request : AppRequest)
    (h : state.archetypes.lookup request.archetype = none) :
    askGuardian state request =
      .error ("Archetype \x27" ++ request.archetype ++ "\x27 not found.") := by
  unfold askGuardian
  rw [h]

/-- C2 (witness): `"NonexistentMode"` against the startup registry
yields exactly the specified message. -/
theorem C2_witness :
    askGuardian (buildRegistry "k" (fun _ => .error "offline")) ⟨"p", "NonexistentMode", none⟩ =
      .error "Archetype \x27NonexistentMode\x27 not found." :=
  C2_archetype_not_found (buildRegistry "k" (fun _ => .error "offline"))
    ⟨"p", "NonexistentMode", none⟩ rfl

/-- C3: with a non-empty `user_system_prompt` the composed prompt is
exactly system prompt, "User's Instructions" section, "User's Prompt"
section, in that order, each preceded by a blank line and a header,
with every input text verbatim. -/
theorem C3_three_sections_in_order (archetype : Archetype) (request : AppRequest) (u : String)
    (hu : request.user_system_prompt = some u) (_hne : u ≠ "") :
    composeFullPrompt archetype request =
      archetype.system_prompt ++ "\n\n--- User\x27s Instructions ---\n" ++ u
        ++ "\n\n--- User\x27s Prompt ---\n" ++ request.prompt :=
  composeFullPrompt_some archetype request u hu

/-- C3 (witness): the three-section layout at a concrete archetype and
request. -/
theorem C3_witness :
    composeFullPrompt ⟨"S", "m", fun _ => .error .noChoices⟩ ⟨"p", "A", some "inst"⟩ =
      "S" ++ "\n\n--- User\x27s Instructions ---\n" ++ "inst"
        ++ "\n\n--- User\x27s Prompt ---\n" ++ "p" :=
  C3_three_sections_in_order ⟨"S", "m", fun _ => .error .noChoices⟩ ⟨"p", "A", some "inst"⟩
    "inst" rfl (by decide)

/-- C7: when the archetype is found, `ask_guardian` answers the
provider's successful `LLMResponse` unchanged, and turns a provider
error into its display string. -/
theorem C7_provider_result_passthrough (state : AppState) (request : AppRequest)
    (archetype : Archetype)
    (h : state.archetypes.lookup request.archetype = some archetype) :
    (∀ r, archetype.provider (buildProviderRequest archetype request) = .ok r →
        askGuardian state request = .ok r) ∧
    (∀ e, archetype.provider (buildProviderRequest archetype request) = .error e →
        askGuardian state request = .error e.display) := by
  unfold askGuardian
  rw [h]
  dsimp only
  constructor
  · intro r hr
    rw [hr]
    rfl
  · intro e he
    rw [he]
    rfl

/-- C7 (witness): a provider answering `"hello"` makes `ask_guardian`
answer `LLMResponse` with content `"hello"`. -/
theorem C7_witness :
    askGuardian ⟨[("Scout", ⟨"sys", "mod", fun _ => .ok ⟨"hello"⟩⟩)]⟩ ⟨"p", "Scout", none⟩ =
      .ok ⟨"hello"⟩ :=
  (C7_provider_result_passthrough ⟨[("Scout", ⟨"sys", "mod", fun _ => .ok ⟨"hello"⟩⟩)]⟩
      ⟨"p", "Scout", none⟩ ⟨"sys", "mod", fun _ => .ok ⟨"hello"⟩⟩ rfl).1 ⟨"hello"⟩ rfl

/-- C8: every archetype the startup registry serves has a non-empty
system prompt and a non-empty model name. -/
theorem C8_registry_entries_wellformed (groq_api_key : String) (transport : Transport)
    (name : String) (archetype : Archetype)
    (h : (buildRegistry groq_api_key transport).archetypes.lookup name = some archetype) :
    archetype.system_prompt ≠ "" ∧ archetype.model_name ≠ "" := by
  unfold buildRegistry at h
  simp only [List.lookup] at h
  split at h
  · obtain rfl := Option.some_inj.mp h
    constructor <;> (dsimp only; decide)
  · split at h
    · obtain rfl := Option.some_inj.mp h
      constructor <;> (dsimp only; decide)
    · simp at h

/-- C8 (witness): the Scout entry of the startup registry. -/
theorem C8_witness :
    ("You are the Scout. You are fast, versatile, and conversational. Perfect for quick questions, brainstorming, and daily dialogue." : String) ≠ ""
      ∧ ("llama3-8b-8192" : String) ≠ "" :=
  C8_registry_entries_wellformed "k" (fun _ => .error "offline") "Scout"
    ⟨"You are the Scout. You are fast, versatile, and conversational. Perfect for quick questions, brainstorming, and daily dialogue.",
     "llama3-8b-8192", groqAsk "k" (fun _ => .error "offline")⟩ rfl

/-- C9: the `full_prompt` of the `ProviderRequest` the dispatcher
builds is never the empty string, for any archetype and request — the
always-appended "User's Prompt" separator alone is non-empty. -/
theorem C9_full_prompt_nonempty (archetype : Archetype) (request : AppRequest) :
    (buildProviderRequest archetype request).full_prompt ≠ "" := by
  intro hempty
  have hc : composeFullPrompt archetype request = "" := hempty
  have hzero : ("" : String).length = 0 := rfl
  have h24 : promptSeparator.length = 24 := rfl
  cases hcase : request.user_system_prompt with
  | none =>
    rw [composeFullPrompt_none archetype request hcase] at hc
    have hlen := congrArg String.length hc
    rw [String.length_append, String.length_append, h24, hzero] at hlen
    omega
  | some u =>
    rw [composeFullPrompt_some archetype request u hcase] at hc
    have hlen := congrArg String.length hc
    rw [String.length_append, String.length_append, String.length_append,
      String.length_append, h24, hzero] at hlen
    omega

/-- C10: the model name the dispatcher hands to the provider is the
looked-up archetype's `model_name`, and two requests naming the same
archetype are dispatched with the same model name whatever their
prompt and user instructions are. -/
theorem C10_model_name_independent_of_prompts (state : AppState) (r1 r2 : AppRequest)
    (archetype : Archetype)
    (h : state.archetypes.lookup r1.archetype = some archetype)
    (hsame : r1.archetype = r2.archetype) :
    (buildProviderRequest archetype r1).model_name = archetype.model_name ∧
    (buildProviderRequest archetype r1).model_name =
      (buildProviderRequest archetype r2).model_name ∧
    state.archetypes.lookup r2.archetype = some archetype := by
  refine ⟨rfl, rfl, ?_⟩
  rw [← hsame]
  exact h

/-- C10 (witness): two different requests for `"Scout"` are dispatched
with the same model name. -/
theorem C10_witness :
    (buildProviderRequest ⟨"sys", "mod", fun _ => .error .noChoices⟩
        ⟨"p1", "Scout", none⟩).model_name =
      (buildProviderRequest ⟨"sys", "mod", fun _ => .error .noChoices⟩
        ⟨"p2", "Scout", some "x"⟩).model_name :=
  (C10_model_name_independent_of_prompts
      ⟨[("Scout", ⟨"sys", "mod", fun _ => .error .noChoices⟩)]⟩
      ⟨"p1", "Scout", none⟩ ⟨"p2", "Scout", some "x"⟩
      ⟨"sys", "mod", fun _ => .error .noChoices⟩ rfl rfl).2.1

/-- C4: on a success-status response with a parseable body, the
adapter answers the first choice's content, and an empty choices list
is an error mentioning "no choices", never an empty success. -/
theorem C4_first_choice_or_no_choices (api_key : String) (transport : Transport)
    (request : ProviderRequest) (response : HttpResponse) (groq_response : GroqResponse)
    (ht : transport (groqHttpRequest api_key request) = .ok response)
    (hs : statusIsSuccess response.status = true)
    (hb : response.body = some groq_response) :
    (∀ choice rest, groq_response.choices = choice :: rest →
        groqAsk api_key transport request = .ok ⟨choice.message.content⟩) ∧
    (groq_response.choices = [] →
        ∃ e, groqAsk api_key transport request = .error e ∧
          containsStr e.display "no choices") := by
  constructor
  · intro choice rest hc
    unfold groqAsk
    rw [ht]
    dsimp only
    rw [hs, hb]
    dsimp only
    rw [hc]
    rfl
  · intro hc
    refine ⟨.noChoices, ?_, by decide⟩
    unfold groqAsk
    rw [ht]
    dsimp only
    rw [hs, hb]
    dsimp only
    rw [hc]
    rfl

/-- C4 (witness): a 200 response with one choice `"hello"` answers
`Ok("hello")`; a 200 response with zero choices answers a "no choices"
error. -/
theorem C4_witness :
    groqAsk "k" (fun _ => .ok ⟨200, some ⟨[⟨⟨"hello"⟩⟩]⟩⟩) ⟨"fp", "mod"⟩ = .ok ⟨"hello"⟩ ∧
    ∃ e, groqAsk "k" (fun _ => .ok ⟨200, some ⟨[]⟩⟩) ⟨"fp", "mod"⟩ = .error e ∧
      containsStr e.display "no choices" :=
  ⟨(C4_first_choice_or_no_choices "k" (fun _ => .ok ⟨200, some ⟨[⟨⟨"hello"⟩⟩]⟩⟩) ⟨"fp", "mod"⟩
      ⟨200, some ⟨[⟨⟨"hello"⟩⟩]⟩⟩ ⟨[⟨⟨"hello"⟩⟩]⟩ rfl rfl rfl).1 ⟨⟨"hello"⟩⟩ [] rfl,
   (C4_first_choice_or_no_choices "k" (fun _ => .ok ⟨200, some ⟨[]⟩⟩) ⟨"fp", "mod"⟩
      ⟨200, some ⟨[]⟩⟩ ⟨[]⟩ rfl rfl rfl).2 rfl⟩

/-- C5: on a non-success status the adapter answers an error (never a
success) whose display string mentions the status code. -/
theorem C5_non_success_status_error (api_key : String) (transport : Transport)
    (request : ProviderRequest) (response : HttpResponse)
    (ht : transport (groqHttpRequest api_key request) = .ok response)
    (hs : statusIsSuccess response.status = false) :
    ∃ e, groqAsk api_key transport request = .error e ∧
      containsStr e.display (toString response.status) := by
  refine ⟨.apiError response.status, ?_, ?_⟩
  · unfold groqAsk
    rw [ht]
    dsimp only
    rw [hs]
    rfl
  · show (toString response.status).data <:+:
      ("Groq API Error: " ++ toString response.status).data
    rw [String.data_append]
    exact (List.suffix_append _ _).isInfix

/-- C5 (witness): a mock 401 response yields an error mentioning 401. -/
theorem C5_witness :
    ∃ e, groqAsk "k" (fun _ => .ok ⟨401, none⟩) ⟨"fp", "mod"⟩ = .error e ∧
      containsStr e.display (toString (401 : Nat)) :=
  C5_non_success_status_error "k" (fun _ => .ok ⟨401, none⟩) ⟨"fp", "mod"⟩ ⟨401, none⟩ rfl rfl

/-- C6: for every provider call made by the dispatcher, the outbound
JSON body is exactly the model name plus a single user-role message
whose content is the whole composed prompt. -/
theorem C6_request_body_shape (api_key : String) (archetype : Archetype)
    (request : AppRequest) :
    (groqHttpRequest api_key (buildProviderRequest archetype request)).body =
      Json.obj [("model", .str archetype.model_name),
                ("messages", .arr [.obj [("role", .str "user"),
                                         ("content",
                                          .str (composeFullPrompt archetype request))]])] :=
  rfl

end Codexify
